import Mathlib

/-!
Verification of the core of `markdown-it-paged` (src/index.js):
the marker-line parser `parseMarkerLine` and the scope-transform engine
(`layout_transform` core rule), shallowly embedded in Lean.

Strings are handled as `String` / `List Char`.  JavaScript objects used as
string-keyed maps (`attrs`, and markdown-it `Token.attrs` via `attrSet`) are
modelled as insertion-ordered association lists with replace-on-update
semantics, matching JS object insertion order for non-integer-like keys and
markdown-it's `attrSet` (replace value if the key exists, else append).
JS whitespace (`trim`, `/\s/`) is modelled by `isJsSpace` covering the ASCII
whitespace characters and NBSP; the remaining exotic Unicode space characters
are irrelevant to every statement below.
-/

/-- JS whitespace for `String.prototype.trim` and the `/\s/` regex:
space, tab, LF, VT, FF, CR, NBSP. -/
def isJsSpace (c : Char) : Bool :=
  c == ' ' || c == Char.ofNat 9 || c == Char.ofNat 10 || c == Char.ofNat 11 ||
  c == Char.ofNat 12 || c == Char.ofNat 13 || c == Char.ofNat 160

/-- `line.trim()` on a character list. -/
def jsTrimL (cs : List Char) : List Char :=
  ((cs.dropWhile isJsSpace).reverse.dropWhile isJsSpace).reverse

/-- `line.trim()`. -/
def jsTrim (s : String) : String := String.mk (jsTrimL s.toList)

/-- Does the character list start with the given character
(`trimmed.startsWith('@')`, `t.startsWith('.')`, ...)? -/
def startsWithChar (cs : List Char) (c : Char) : Bool :=
  match cs with
  | [] => false
  | a :: _ => a == c

/-- The tokenizer loop of `parseMarkerLine` (src/index.js lines 30-57):
split on whitespace, a single- or double-quote toggles quote mode (the quote
characters are dropped), a character equal to the opening quote ends the span
unconditionally (no escapes).  `buf` is accumulated in reverse. -/
def tokenizeGo : List Char → List Char → Option Char → List String
  | [], buf, _ => if buf.isEmpty then [] else [String.mk buf.reverse]
  | c :: cs, buf, some q =>
      if c == q then tokenizeGo cs buf none
      else tokenizeGo cs (c :: buf) (some q)
  | c :: cs, buf, none =>
      if c == Char.ofNat 34 || c == Char.ofNat 39 then
        tokenizeGo cs buf (some c)
      else if isJsSpace c then
        (if buf.isEmpty then tokenizeGo cs [] none
         else String.mk buf.reverse :: tokenizeGo cs [] none)
      else tokenizeGo cs (c :: buf) none

/-- Tokenize a (already trimmed) marker line. -/
def tokenizeQ (cs : List Char) : List String := tokenizeGo cs [] none

/-- `s.slice(n)` / character-based drop (kernel-reducible, unlike `String.drop`). -/
def dropStr (s : String) (n : Nat) : String := String.mk (s.toList.drop n)

/-- Is the string empty (kernel-reducible form of JS falsiness of a string)? -/
def emptyStr (s : String) : Bool := s.toList.isEmpty

/-- Does the string contain the character (`t.includes('=')`)? -/
def containsChar (s : String) (c : Char) : Bool := s.toList.any (fun a => a == c)

/-- `list.join(' ')` (kernel-reducible form of space-joining). -/
def joinSpaceGo : List String → List Char
  | [] => []
  | [s] => s.toList
  | s :: rest => s.toList ++ ' ' :: joinSpaceGo rest

/-- Join strings with single spaces, as `Array.prototype.join(' ')`. -/
def joinSpace (ss : List String) : String := String.mk (joinSpaceGo ss)

/-- Insertion-ordered upsert, the semantics of both JS `obj[key] = val`
and markdown-it `Token.attrSet`. -/
def listSet (m : List (String × String)) (k v : String) : List (String × String) :=
  if m.any (fun p => p.1 == k) then
    m.map (fun p => if p.1 == k then (k, v) else p)
  else m ++ [(k, v)]

/-- First index of a character in a list (`t.indexOf('=')`). -/
def idxOf : List Char → Char → Option Nat
  | [], _ => none
  | c :: cs, x =>
      if c == x then some 0
      else match idxOf cs x with
        | some n => some (n + 1)
        | none => none

/-- `val.split(/[,\s]+/).filter(Boolean)` used for `class=` values:
split on runs of commas/whitespace, dropping empty pieces. -/
def splitClassesGo : List Char → List Char → List String
  | [], buf => if buf.isEmpty then [] else [String.mk buf.reverse]
  | c :: cs, buf =>
      if c == ',' || isJsSpace c then
        (if buf.isEmpty then splitClassesGo cs []
         else String.mk buf.reverse :: splitClassesGo cs [])
      else splitClassesGo cs (c :: buf)

/-- Split a `class=` attribute value into class pieces. -/
def splitClasses (s : String) : List String := splitClassesGo s.toList []

/-- The parsed representation of one `@`-line (src/index.js `parseMarkerLine`
result `{ kind, name, attrs }`). -/
structure Marker where
  kind : String
  name : Option String
  attrs : List (String × String)
deriving Repr, DecidableEq

/-- The recognized marker kinds. -/
def kindsList : List String := ["spread", "page", "section", "break"]

/-- Optional-name recognition (src/index.js lines 72-80): the second token is
the name iff it exists, is truthy, contains no `=`, and starts with neither
`.` nor `#`. -/
def takeName : List String → Option String × List String
  | [] => (none, [])
  | t :: ts =>
      if !(emptyStr t) && !(containsChar t '=') && !(startsWithChar t.toList '.') &&
          !(startsWithChar t.toList '#') then
        (some t, ts)
      else (none, t :: ts)

/-- The attribute-token loop of `parseMarkerLine` (src/index.js lines 85-117),
accumulating the attribute map and the class list. -/
def parseAttrTokens : List String → List (String × String) → List String →
    List (String × String) × List String
  | [], attrs, classes => (attrs, classes)
  | t :: ts, attrs, classes =>
      if startsWithChar t.toList '.' then
        let c := jsTrim (dropStr t 1)
        parseAttrTokens ts attrs (if emptyStr c then classes else classes ++ [c])
      else if startsWithChar t.toList '#' then
        let i := jsTrim (dropStr t 1)
        parseAttrTokens ts (if emptyStr i then attrs else listSet attrs "id" i) classes
      else
        match idxOf t.toList '=' with
        | some eq =>
            if eq > 0 then
              let key := jsTrim (String.mk (t.toList.take eq))
              let val := jsTrim (String.mk (t.toList.drop (eq + 1)))
              if emptyStr key then parseAttrTokens ts attrs classes
              else if key == "class" then
                parseAttrTokens ts attrs (classes ++ splitClasses val)
              else parseAttrTokens ts (listSet attrs key val) classes
            else parseAttrTokens ts attrs classes
        | none => parseAttrTokens ts attrs classes

/-- `parseMarkerLine` (src/index.js lines 25-121).  The first token provably
exists whenever the trimmed line starts with `@` (see the totality theorem),
so `headD ""` never takes its default. -/
def parseMarkerLine (line : String) : Option Marker :=
  let trimmed := jsTrimL line.toList
  if !(startsWithChar trimmed '@') then none
  else
    let tokens := tokenizeQ trimmed
    let head := tokens.headD ""
    let kind := dropStr head 1
    if !(kindsList.contains kind) then none
    else if kind == "break" then some ⟨kind, none, []⟩
    else
      let (name, rest) := takeName tokens.tail
      let (attrs, classes) := parseAttrTokens rest [] []
      some ⟨kind, name,
        if classes.isEmpty then attrs
        else listSet attrs "class" (joinSpace classes)⟩

/-! ## The scope transform engine (src/index.js `layout_transform`) -/

/-- A marker token's `meta`: the parsed marker plus the 1-based source line
stored by the block rule as `__line` (src/index.js line 175).  A JS object
field that is absent (`kind` of the implicit-page meta `{name, attrs, __line}`)
is modelled as the empty string / 0. -/
structure MarkerMeta where
  kind : String
  name : Option String
  attrs : List (String × String)
  line : Nat
deriving Repr, DecidableEq

/-- A markdown-it token, restricted to the fields the transform touches:
`type`, `tag`, `nesting`, `attrs` (insertion-ordered list maintained by
`attrSet`), `meta`. -/
structure Token where
  ttype : String
  tag : String
  nesting : Int
  attrs : List (String × String)
  meta : Option MarkerMeta
deriving Repr, DecidableEq

/-- One entry of `env.layoutWarnings`: `{ line, type, message, marker }`
(src/index.js line 125). -/
structure Diag where
  line : Nat
  dtype : String
  message : String
  marker : Option MarkerMeta
deriving Repr, DecidableEq

/-- The plugin options after merging with the defaults (src/index.js
lines 155-160). -/
structure Config where
  implicitPage : Bool
  preferPagesInSpreads : Bool
  warnOnBreakWithoutScope : Bool
deriving Repr, DecidableEq

/-- The default option values. -/
def defaultConfig : Config := ⟨true, false, true⟩

/-- `new state.Token(type, tag, nesting)`: fresh token, no attrs, no meta. -/
def mkToken (ttype tag : String) (nesting : Int) : Token :=
  ⟨ttype, tag, nesting, [], none⟩

/-- markdown-it `token.attrSet(name, value)`: replace the value if the
attribute exists, else append. -/
def attrSet (t : Token) (k v : String) : Token :=
  { t with attrs := listSet t.attrs k v }

/-- `addClasses(token, baseClass, extraClass)` (src/index.js lines 128-134). -/
def addClasses (t : Token) (baseClass extraClass : String) : Token :=
  let cls := (if emptyStr baseClass then [] else [baseClass]) ++
    (if emptyStr extraClass then [] else [extraClass])
  let merged := jsTrim (joinSpace cls)
  if emptyStr merged then t else attrSet t "class" merged

/-- Truthy lookup in an attrs map (`attrs.template`, `attrs.region`,
`attrs.id` guards: present and non-empty). -/
def lookupTruthy (m : List (String × String)) (k : String) : Option String :=
  match (m.find? (fun p => p.1 == k)).map (fun p => p.2) with
  | some v => if emptyStr v then none else some v
  | none => none

/-- The `Object.entries(attrs)` loop of `attachDataAttrs` (src/index.js
lines 147-151): every non-empty value whose key is not
class/id/template/region becomes `data-<key>`. -/
def entriesLoop : Token → List (String × String) → Token
  | t, [] => t
  | t, (k, v) :: rest =>
      if emptyStr v || k == "class" || k == "id" || k == "template" || k == "region" then
        entriesLoop t rest
      else entriesLoop (attrSet t ("data-" ++ k) v) rest

/-- `attachDataAttrs(token, kind, name, attrs)` (src/index.js lines 136-152). -/
def attachDataAttrs (t0 : Token) (kind : String) (name : Option String)
    (attrs : List (String × String)) : Token :=
  let nv := name.getD ""
  let t1 := if !(emptyStr nv) && kind == "spread" then attrSet t0 "data-spread" nv else t0
  let t2 := if !(emptyStr nv) && kind == "page" then attrSet t1 "data-page" nv else t1
  let t3 := if !(emptyStr nv) && kind == "section" then attrSet t2 "data-section" nv else t2
  let t4 := match lookupTruthy attrs "template" with
    | some v => attrSet t3 "data-template" v
    | none => t3
  let t5 := match lookupTruthy attrs "region" with
    | some v => attrSet t4 "data-region" v
    | none => t4
  let t6 := match lookupTruthy attrs "id" with
    | some v => attrSet t5 "id" v
    | none => t5
  entriesLoop t6 attrs

/-- The open token built by `openSpread` for a marker meta. -/
def spreadOpenTok (m : MarkerMeta) : Token :=
  attachDataAttrs
    (addClasses (mkToken "layout_spread_open" "div" 1) "spread"
      ((lookupTruthy m.attrs "class").getD ""))
    "spread" m.name m.attrs

/-- The open token built by `openPage` for a marker meta. -/
def pageOpenTok (m : MarkerMeta) : Token :=
  attachDataAttrs
    (addClasses (mkToken "layout_page_open" "div" 1) "page"
      ((lookupTruthy m.attrs "class").getD ""))
    "page" m.name m.attrs

/-- The open token built by `openSection` for a marker meta. -/
def sectionOpenTok (m : MarkerMeta) : Token :=
  attachDataAttrs
    (addClasses (mkToken "layout_section_open" "div" 1) "region"
      ((lookupTruthy m.attrs "class").getD ""))
    "section" m.name m.attrs

/-- The break node: `class="md-break"`, `aria-hidden="true"`, nothing else
(src/index.js lines 314-316). -/
def breakTok : Token :=
  attrSet (attrSet (mkToken "layout_break" "div" 0) "class" "md-break") "aria-hidden" "true"

/-- The transform's state: the five booleans local to `layout_transform`, the
rewritten token list `out`, and `env.layoutWarnings` (`none` = field absent). -/
structure TState where
  spreadOpen : Bool
  pageOpen : Bool
  sectionOpen : Bool
  spreadStartedWithNoPagesYet : Bool
  sawAnyPageInsideCurrentSpread : Bool
  out : List Token
  env : Option (List Diag)
deriving Repr, DecidableEq

/-- The state at the start of a transform run over a given diagnostics env. -/
def initState (e : Option (List Diag)) : TState := ⟨false, false, false, false, false, [], e⟩

/-- `warn(env, line, type, message, marker)` (src/index.js lines 123-126):
lazily create `env.layoutWarnings` and push. -/
def warnE (e : Option (List Diag)) (d : Diag) : Option (List Diag) :=
  some (e.getD [] ++ [d])

/-- `warn` acting on the transform state. -/
def warnS (s : TState) (line : Nat) (dtype message : String) (marker : Option MarkerMeta) :
    TState :=
  { s with env := warnE s.env ⟨line, dtype, message, marker⟩ }

/-- Diagnostic message for `nested_spread`. -/
def msgNestedSpread : String :=
  "@spread encountered while another spread is open; closing the previous spread automatically."

/-- Diagnostic message for `page_outside_spread`. -/
def msgPageOutsideSpread : String :=
  "@page used outside of a spread; allowed, but spreads are recommended for deliberate grouping."

/-- Diagnostic message for `implicit_page`. -/
def msgImplicitPage : String :=
  "@section used without an open @page; creating an implicit page wrapper (data-page=\"auto\")."

/-- Diagnostic message for `section_without_page`. -/
def msgSectionWithoutPage : String :=
  "@section used without an open @page; region will render but will not be wrapped in a page."

/-- Diagnostic message for `spread_without_pages`. -/
def msgSpreadWithoutPages : String :=
  "@section inside a spread without an explicit @page. Allowed (adhoc spread), but explicit @page markers give stronger control."

/-- Diagnostic message for `break_without_scope`. -/
def msgBreakWithoutScope : String :=
  "@break used but no spread/page/section is open. It will still force a page break."

/-- Diagnostic message for `spread_eof_close`. -/
def msgSpreadEofClose : String :=
  "An open @spread reached end-of-document; closing it automatically. If this was meant to be adhoc, consider adding @break to return to default flow."

/-- `closeSection()` (src/index.js lines 196-200). -/
def closeSection (s : TState) : TState :=
  if s.sectionOpen then
    { s with out := s.out ++ [mkToken "layout_section_close" "div" (-1)], sectionOpen := false }
  else s

/-- `closePage()` (src/index.js lines 202-207): no-op without an open page,
else close the section first. -/
def closePage (s : TState) : TState :=
  if s.pageOpen then
    let s := closeSection s
    { s with out := s.out ++ [mkToken "layout_page_close" "div" (-1)], pageOpen := false }
  else s

/-- `closeSpread()` (src/index.js lines 209-216). -/
def closeSpread (s : TState) : TState :=
  if s.spreadOpen then
    let s := closePage s
    { s with
      out := s.out ++ [mkToken "layout_spread_close" "div" (-1)]
      spreadOpen := false
      spreadStartedWithNoPagesYet := false
      sawAnyPageInsideCurrentSpread := false }
  else s

/-- `openSpread(meta)` (src/index.js lines 218-226). -/
def openSpread (s : TState) (m : MarkerMeta) : TState :=
  { s with
    out := s.out ++ [spreadOpenTok m]
    spreadOpen := true
    spreadStartedWithNoPagesYet := true
    sawAnyPageInsideCurrentSpread := false }

/-- `openPage(meta)` (src/index.js lines 228-241). -/
def openPage (cfg : Config) (s : TState) (m : MarkerMeta) : TState :=
  let s := { s with out := s.out ++ [pageOpenTok m], pageOpen := true }
  if s.spreadOpen then
    { s with sawAnyPageInsideCurrentSpread := true, spreadStartedWithNoPagesYet := false }
  else if cfg.preferPagesInSpreads then
    warnS s m.line "page_outside_spread" msgPageOutsideSpread (some m)
  else s

/-- `openSection(meta)` (src/index.js lines 243-249). -/
def openSection (s : TState) (m : MarkerMeta) : TState :=
  { s with out := s.out ++ [sectionOpenTok m], sectionOpen := true }

/-- Copy a non-marker token through unchanged. -/
def pushOut (s : TState) (t : Token) : TState := { s with out := s.out ++ [t] }

/-- `const meta = tok.meta || {}` (src/index.js line 259): a missing meta
behaves as an empty object, whose `kind` is undefined (modelled "") and whose
`__line` defaults to 0. -/
def tokMeta (tok : Token) : MarkerMeta := tok.meta.getD ⟨"", none, [], 0⟩

/-- The per-token body of the transform loop (src/index.js lines 251-320).
A `layout_marker` token with a missing meta behaves as `meta = {}` whose
`kind` is undefined: it matches no branch and is dropped. -/
def processNode (cfg : Config) (s : TState) (tok : Token) : TState :=
  if !(tok.ttype == "layout_marker") then pushOut s tok
  else
    let m := tokMeta tok
    if m.kind == "spread" then
      let s := if s.spreadOpen then warnS s m.line "nested_spread" msgNestedSpread (some m) else s
      openSpread (closeSpread s) m
    else if m.kind == "page" then
      openPage cfg (closePage s) m
    else if m.kind == "section" then
      let s := closeSection s
      let s :=
        if !s.pageOpen then
          if cfg.implicitPage then
            openPage cfg (warnS s m.line "implicit_page" msgImplicitPage (some m))
              ⟨"", some "auto", [], m.line⟩
          else warnS s m.line "section_without_page" msgSectionWithoutPage (some m)
        else s
      let s :=
        if s.spreadOpen && s.spreadStartedWithNoPagesYet then
          warnS s m.line "spread_without_pages" msgSpreadWithoutPages (some m)
        else s
      openSection s m
    else if m.kind == "break" then
      let s :=
        if !s.sectionOpen && !s.pageOpen && !s.spreadOpen && cfg.warnOnBreakWithoutScope then
          warnS s m.line "break_without_scope" msgBreakWithoutScope (some m)
        else s
      let s :=
        if s.sectionOpen then closeSection s
        else if s.pageOpen then closePage s
        else if s.spreadOpen then closeSpread s
        else s
      pushOut s breakTok
    else s

/-- The transform loop over the whole token sequence. -/
def goTransform (cfg : Config) : TState → List Token → TState
  | s, [] => s
  | s, t :: ts => goTransform cfg (processNode cfg s t) ts

/-- End-of-document handling (src/index.js lines 322-332): warn
`spread_eof_close` if an open spread never saw a page, then `closeSpread()`. -/
def finishTransform (s : TState) : TState :=
  let s :=
    if s.spreadOpen && !s.sawAnyPageInsideCurrentSpread then
      warnS s 0 "spread_eof_close" msgSpreadEofClose none
    else s
  closeSpread s

/-- One whole run of the core rewrite from a given starting env. -/
def runTransform (cfg : Config) (e : Option (List Diag)) (toks : List Token) : TState :=
  finishTransform (goTransform cfg (initState e) toks)

/-- The registered `layout_transform` core rule: a no-op unless
`env.__layoutMarkersUsed` was set during block parsing (`markersUsed`);
otherwise rewrite `state.tokens` and mutate `env.layoutWarnings`.
Returns (rewritten tokens, final `env.layoutWarnings`). -/
def layout_transform (cfg : Config) (markersUsed : Bool) (e : Option (List Diag))
    (toks : List Token) : List Token × Option (List Diag) :=
  if markersUsed then
    let s := runTransform cfg e toks
    (s.out, s.env)
  else (toks, e)

/-- The diagnostics a run appends, independent of the initial env content. -/
def emittedDiags (cfg : Config) (markersUsed : Bool) (toks : List Token) : List Diag :=
  ((layout_transform cfg markersUsed none toks).2).getD []

/-- `env.layoutWarnings` after appending a batch of diagnostics to a possibly
absent collection: still absent when nothing was emitted, else the previous
entries followed by the new ones. -/
def warnAll (e : Option (List Diag)) (ds : List Diag) : Option (List Diag) :=
  if ds.isEmpty then e else some (e.getD [] ++ ds)

/-- Replace the env component of a state. -/
def setEnv (s : TState) (e : Option (List Diag)) : TState := { s with env := e }

/-! ## Balance / nesting checker and run classification -/

/-- Classify a wrapper node: `some (rank, isOpen)` with rank 0 = spread,
1 = page, 2 = section; `none` for every other token (content, markers,
break nodes). -/
def wrapperRank (t : Token) : Option (Nat × Bool) :=
  if t.ttype == "layout_spread_open" then some (0, true)
  else if t.ttype == "layout_spread_close" then some (0, false)
  else if t.ttype == "layout_page_open" then some (1, true)
  else if t.ttype == "layout_page_close" then some (1, false)
  else if t.ttype == "layout_section_open" then some (2, true)
  else if t.ttype == "layout_section_close" then some (2, false)
  else none

/-- Typed-bracket stack machine over a token sequence.  The stack holds the
ranks of the currently open wrappers, innermost first.  Opening requires the
enclosing wrapper (if any) to be of strictly outer rank — this encodes the
spread ⊇ page ⊇ section hierarchy — and closing requires the innermost open
wrapper to be of the same kind.  Returns the final stack, or `none` on a
mismatch. -/
def nestCheckSt : List Token → List Nat → Option (List Nat)
  | [], st => some st
  | t :: ts, st =>
      match wrapperRank t with
      | none => nestCheckSt ts st
      | some (k, true) =>
          match st with
          | [] => nestCheckSt ts [k]
          | h :: tl => if h < k then nestCheckSt ts (k :: h :: tl) else none
      | some (k, false) =>
          match st with
          | h :: tl => if h == k then nestCheckSt ts tl else none
          | [] => none

/-- A token sequence is balanced and properly nested: the bracket machine
succeeds and ends with no open wrapper, so every open has a matching later
close of the same kind, no pair crosses another pair's boundary, and nesting
respects spread ⊇ page ⊇ section. -/
def wellNested (toks : List Token) : Bool := nestCheckSt toks [] == some []

/-- Scope flags are downward closed: a section is only open under an open
page. -/
def dcOK (s : TState) : Bool := !s.sectionOpen || s.pageOpen

/-- End-of-document closes everything only when no page is open outside a
spread. -/
def eofOK (s : TState) : Bool := s.spreadOpen || !s.pageOpen

/-- An input token is legal when it is not itself one of the wrapper node
types the transform emits (in the real pipeline these types are produced
only by the transform). -/
def legalIn (t : Token) : Bool := (wrapperRank t).isNone

/-- The `kind` carried by a token's meta (empty when the meta is absent). -/
def markerKind (t : Token) : String :=
  match t.meta with
  | some m => m.kind
  | none => ""

/-- Executable classification of a run: every input token is legal, the scope
flags stay downward closed after every step, a new spread never opens while a
page is open outside a spread, and end-of-document finds no page open outside
a spread. -/
def scopedOK (cfg : Config) : TState → List Token → Bool
  | s, [] => eofOK s
  | s, t :: ts =>
      let spreadGuard :=
        if t.ttype == "layout_marker" && markerKind t == "spread" then
          s.spreadOpen || !s.pageOpen
        else true
      let s' := processNode cfg s t
      legalIn t && spreadGuard && dcOK s' && scopedOK cfg s' ts

/-! ## Concrete fixtures for the scenario theorems -/

/-- A `layout_marker` token as pushed by the block rule `markerBlock`
(src/index.js lines 173-175): type `layout_marker`, empty tag, nesting 0,
no attrs, meta = parsed marker plus line. -/
def markerTok (m : MarkerMeta) : Token := ⟨"layout_marker", "", 0, [], some m⟩

/-- `@spread s` at line 1. -/
def exSpreadMeta : MarkerMeta := ⟨"spread", some "s", [], 1⟩

/-- `@page p` at line 2. -/
def exPageMeta : MarkerMeta := ⟨"page", some "p", [], 2⟩

/-- `@section a` at line 3. -/
def exSectionMeta : MarkerMeta := ⟨"section", some "a", [], 3⟩

/-- A bare `@break` at a given line. -/
def exBreakMeta (l : Nat) : MarkerMeta := ⟨"break", none, [], l⟩

/-- Scenario D input: `@spread s`, `@page p`, `@section a`, three `@break`s. -/
def scenarioD : List Token :=
  [markerTok exSpreadMeta, markerTok exPageMeta, markerTok exSectionMeta,
   markerTok (exBreakMeta 4), markerTok (exBreakMeta 5), markerTok (exBreakMeta 6)]

/-- A well-formed parser result: recognized kind, and a `break` marker has no
name and no attributes. -/
def markerWF (m : Marker) : Bool :=
  kindsList.contains m.kind &&
    (!(m.kind == "break") || (m.name.isNone && m.attrs.isEmpty))

/-- The wrapper stack (innermost first) corresponding to the scope flags. -/
def stackOf (s : TState) : List Nat :=
  (if s.sectionOpen then [2] else []) ++ (if s.pageOpen then [1] else []) ++
    (if s.spreadOpen then [0] else [])

/-- The close nodes a `@break` emits: exactly the single nearest open scope,
in priority order section → page → spread, or nothing. -/
def nearestClose (s : TState) : List Token :=
  if s.sectionOpen then [mkToken "layout_section_close" "div" (-1)]
  else if s.pageOpen then [mkToken "layout_page_close" "div" (-1)]
  else if s.spreadOpen then [mkToken "layout_spread_close" "div" (-1)]
  else []

/-- The `implicit_page` diagnostic for a section marker. -/
def ipDiag (m : MarkerMeta) : Diag := ⟨m.line, "implicit_page", msgImplicitPage, some m⟩

/-- The `section_without_page` diagnostic for a section marker. -/
def sowDiag (m : MarkerMeta) : Diag :=
  ⟨m.line, "section_without_page", msgSectionWithoutPage, some m⟩

/-- The `spread_without_pages` diagnostic for a section marker. -/
def swpDiag (m : MarkerMeta) : Diag :=
  ⟨m.line, "spread_without_pages", msgSpreadWithoutPages, some m⟩

/-- The expected output of scenario D. -/
def scenarioDOut : List Token :=
  [spreadOpenTok exSpreadMeta, pageOpenTok exPageMeta, sectionOpenTok exSectionMeta,
   mkToken "layout_section_close" "div" (-1), breakTok,
   mkToken "layout_page_close" "div" (-1), breakTok,
   mkToken "layout_spread_close" "div" (-1), breakTok]

/-- Input for the C2 counterexample: two consecutive `@spread` markers. -/
def nestedSpreadInput : List Token :=
  [markerTok ⟨"spread", none, [], 1⟩, markerTok ⟨"spread", none, [], 2⟩]

/-- Input for the C4 counterexample and scenario C: `@spread` then
`@section intro`. -/
def spreadThenSectionInput : List Token :=
  [markerTok ⟨"spread", none, [], 1⟩, markerTok ⟨"section", some "intro", [], 2⟩]

/-! ## Parser theorems -/

theorem tokenizeGo_cons_ne_nil (cs : List Char) :
    ∀ (a : Char) (t : List Char) (q : Option Char), tokenizeGo cs (a :: t) q ≠ [] := by
  induction cs with
  | nil => intro a t q; simp [tokenizeGo]
  | cons c cs ih =>
      intro a t q
      cases q with
      | some q =>
          simp only [tokenizeGo]
          split
          · exact ih a t none
          · exact ih c (a :: t) (some q)
      | none =>
          simp only [tokenizeGo]
          split
          · exact ih a t (some c)
          · split
            · simp
            · exact ih c (a :: t) none

/-- C6: a line whose trimmed text does not start with `@` parses to `null`,
and a line starting with `@` whose first word is not a recognized kind parses
to `null` (the parser is pure: no diagnostic, no side effect). -/
theorem c6_nonmarkers_rejected (line : String) :
    (startsWithChar (jsTrimL line.toList) '@' = false → parseMarkerLine line = none) ∧
    (startsWithChar (jsTrimL line.toList) '@' = true →
      kindsList.contains (dropStr ((tokenizeQ (jsTrimL line.toList)).headD "") 1) = false →
      parseMarkerLine line = none) := by
  constructor
  · intro h
    simp only [String.toList] at h
    simp only [parseMarkerLine, String.toList]
    rw [h]
    simp
  · intro h1 h2
    simp only [String.toList] at h1 h2
    simp only [parseMarkerLine, String.toList]
    rw [h1, h2]
    simp

theorem c6_witness : parseMarkerLine "hello" = none ∧ parseMarkerLine "@foo bar" = none := by
  constructor
  · exact (c6_nonmarkers_rejected "hello").1 (by decide)
  · exact (c6_nonmarkers_rejected "@foo bar").2 (by decide) (by decide)

/-- C10: totality of the marker line parser.  Whenever the trimmed line
starts with `@` the token list is non-empty (so reading the first token
never fails), and every parsed marker is a well-formed `{kind, name, attrs}`
record. -/
theorem c10_parser_total (line : String) :
    (startsWithChar (jsTrimL line.toList) '@' = true →
      tokenizeQ (jsTrimL line.toList) ≠ []) ∧
    (∀ m, parseMarkerLine line = some m → markerWF m = true) := by
  constructor
  · intro h
    cases htl : jsTrimL line.toList with
    | nil => rw [htl] at h; simp [startsWithChar] at h
    | cons a t =>
        rw [htl] at h
        simp only [startsWithChar, beq_iff_eq] at h
        subst h
        show tokenizeGo t ['@'] none ≠ []
        exact tokenizeGo_cons_ne_nil t '@' [] none
  · intro m hm
    simp only [parseMarkerLine] at hm
    split at hm
    · simp at hm
    · split at hm
      · simp at hm
      · split at hm
        · rw [Option.some_inj] at hm
          subst hm
          rename_i hstarts hkinds hbreak
          simp only [Bool.not_eq_true, Bool.not_eq_false'] at hkinds
          simp_all [markerWF]
        · rw [Option.some_inj] at hm
          subst hm
          rename_i hstarts hkinds hbreak
          simp only [Bool.not_eq_true, Bool.not_eq_false'] at hkinds
          simp only [Bool.not_eq_true] at hbreak
          simp_all [markerWF]

theorem c10_witness :
    tokenizeQ (jsTrimL ("@page x").toList) ≠ [] ∧ markerWF ⟨"page", some "x", []⟩ = true := by
  constructor
  · exact (c10_parser_total "@page x").1 (by decide)
  · exact (c10_parser_total "@page x").2 ⟨"page", some "x", []⟩ (by decide)

/-- C3 counterexample: a `key=value` token with key `id` DOES set the
marker's id — `@page id=x` (no `#` token at all) yields `attrs.id = "x"`,
refuting "only a `#` shorthand token sets id". -/
theorem c3_id_key_sets_id :
    parseMarkerLine "@page id=x" = some ⟨"page", none, [("id", "x")]⟩ := by decide

/-- C3 amended: `id=x` sets the id like any other key and the later `#y`
token overwrites it, so for `@page class=foo .bar id=x #y` the class is
exactly "foo bar" and the id is exactly "y" — but because `#y` overwrote
`id=x`, not because `id=x` was ignored. -/
theorem c3_attr_precedence :
    parseMarkerLine "@page class=foo .bar id=x #y" =
      some ⟨"page", none, [("id", "y"), ("class", "foo bar")]⟩ := by decide

/-- C7: quoted spans are single tokens with the quotes stripped
(`@page title="a b"` gives `title = "a b"`), and there is no escape
mechanism: in `@page t="a\"b"` the backslash is an ordinary character and
the second `"` ends the span, yielding `t = a\b` (and the trailing `"`
opens an unterminated span), not `t = a"b`. -/
theorem c7_quoted_tokens :
    parseMarkerLine "@page title=\"a b\"" = some ⟨"page", none, [("title", "a b")]⟩ ∧
    parseMarkerLine "@page t=\"a\\\"b\"" = some ⟨"page", none, [("t", "a\\b")]⟩ := by
  constructor
  · decide
  · decide

/-! ## Environment-shift lemmas: the engine only appends diagnostics -/

theorem setEnv_setEnv (s : TState) (e e' : Option (List Diag)) :
    setEnv (setEnv s e) e' = setEnv s e' := rfl

theorem setEnv_env (s : TState) (e : Option (List Diag)) : (setEnv s e).env = e := rfl

theorem warnAll_nil (e : Option (List Diag)) : warnAll e [] = e := rfl

theorem getD_warnAll_none (ds : List Diag) : (warnAll none ds).getD [] = ds := by
  cases ds <;> simp [warnAll]

theorem warnAll_warnAll (e : Option (List Diag)) (ds1 ds2 : List Diag) :
    warnAll (warnAll e ds1) ds2 = warnAll e (ds1 ++ ds2) := by
  cases ds1 <;> cases ds2 <;> simp [warnAll]


theorem processNode_env (cfg : Config) (tok : Token) (s : TState) (e : Option (List Diag)) :
    processNode cfg (setEnv s e) tok =
      setEnv (processNode cfg (setEnv s none) tok)
        (warnAll e (((processNode cfg (setEnv s none) tok).env).getD [])) := by
  rcases s with ⟨sp, pg, sec, d, f, o, en⟩
  by_cases h1 : (tok.ttype == "layout_marker") = true
  · by_cases h2 : ((tokMeta tok).kind == "spread") = true
    · cases sp <;> cases pg <;> cases sec <;>
        simp [processNode, h1, h2, openSpread, closeSpread, closePage, closeSection,
          warnS, warnE, warnAll, setEnv]
    · by_cases h3 : ((tokMeta tok).kind == "page") = true
      · cases sp <;> cases pg <;> cases sec <;> cases hpp : cfg.preferPagesInSpreads <;>
          simp [processNode, h1, h2, h3, hpp, openPage, closePage, closeSection,
            warnS, warnE, warnAll, setEnv]
      · by_cases h4 : ((tokMeta tok).kind == "section") = true
        · cases sp <;> cases pg <;> cases sec <;> cases d <;>
            cases hip : cfg.implicitPage <;> cases hpp : cfg.preferPagesInSpreads <;>
            simp [processNode, h1, h2, h3, h4, hip, hpp, openSection, openPage,
              closeSection, warnS, warnE, warnAll, setEnv]
        · by_cases h5 : ((tokMeta tok).kind == "break") = true
          · cases sp <;> cases pg <;> cases sec <;> cases hwb : cfg.warnOnBreakWithoutScope <;>
              simp [processNode, h1, h2, h3, h4, h5, hwb, closeSpread, closePage,
                closeSection, warnS, warnE, warnAll, setEnv, pushOut]
          · simp [processNode, h1, h2, h3, h4, h5, setEnv, warnAll]
  · simp [processNode, h1, pushOut, setEnv, warnAll]

theorem goTransform_env (cfg : Config) (ts : List Token) :
    ∀ (s : TState) (e : Option (List Diag)),
      goTransform cfg (setEnv s e) ts =
        setEnv (goTransform cfg (setEnv s none) ts)
          (warnAll e (((goTransform cfg (setEnv s none) ts).env).getD [])) := by
  induction ts with
  | nil => intro s e; simp [goTransform, setEnv_setEnv, setEnv_env, warnAll]
  | cons t ts ih =>
      intro s e
      simp only [goTransform]
      rw [processNode_env cfg t s e]
      rw [ih (processNode cfg (setEnv s none) t)
        (warnAll e (((processNode cfg (setEnv s none) t).env).getD []))]
      conv_rhs => rw [processNode_env cfg t s none]
      rw [ih (processNode cfg (setEnv s none) t)
        (warnAll none (((processNode cfg (setEnv s none) t).env).getD []))]
      simp [setEnv_setEnv, setEnv_env, warnAll_warnAll, getD_warnAll_none]

theorem finishTransform_env (s : TState) (e : Option (List Diag)) :
    finishTransform (setEnv s e) =
      setEnv (finishTransform (setEnv s none))
        (warnAll e (((finishTransform (setEnv s none)).env).getD [])) := by
  rcases s with ⟨sp, pg, sec, d, f, o, en⟩
  cases sp <;> cases pg <;> cases sec <;> cases f <;>
    simp [finishTransform, closeSpread, closePage, closeSection, warnS, warnE,
      warnAll, setEnv]

theorem runTransform_env (cfg : Config) (toks : List Token) (e : Option (List Diag)) :
    runTransform cfg e toks =
      setEnv (runTransform cfg none toks)
        (warnAll e (((runTransform cfg none toks).env).getD [])) := by
  have hbase : initState e = setEnv (initState none) e := rfl
  have hbase0 : initState none = setEnv (initState none) none := rfl
  unfold runTransform
  rw [hbase, goTransform_env cfg toks (initState none) e]
  conv_rhs => rw [hbase0, goTransform_env cfg toks (initState none) none]
  conv_lhs => rw [finishTransform_env]
  conv_rhs => rw [finishTransform_env]
  simp [setEnv_setEnv, setEnv_env, warnAll_warnAll, getD_warnAll_none]

theorem setEnv_out (s : TState) (e : Option (List Diag)) : (setEnv s e).out = s.out := rfl

/-- C9: the engine is deterministic and free of hidden state.  In this
embedding a run is a pure function of (configuration, marker flag, input
sequence), so two runs on the same data are definitionally identical; the
substantive content is that the only ambient state — the caller's
`env.layoutWarnings` — never influences the rewritten sequence or which
diagnostics are emitted: a run from any starting env yields the same output
as a run from an absent env, with the same diagnostics appended in the same
order after any pre-existing entries. -/
theorem c9_deterministic_env_independent (cfg : Config) (markersUsed : Bool)
    (toks : List Token) (e : Option (List Diag)) :
    layout_transform cfg markersUsed e toks =
      ((layout_transform cfg markersUsed none toks).1,
        warnAll e (emittedDiags cfg markersUsed toks)) := by
  cases markersUsed with
  | false => simp [layout_transform, emittedDiags, warnAll]
  | true =>
      simp only [layout_transform, emittedDiags, if_true]
      rw [runTransform_env cfg toks e]
      simp [setEnv_env, setEnv_out]

/-- C2 amended: when the caller-supplied env has no diagnostics collection,
`warn` lazily creates it, so after processing the field is absent exactly
when no diagnostic was emitted and otherwise holds exactly the emitted
diagnostics in order; no error is raised and all other outputs are produced
normally (the rewritten sequence does not depend on the env, see the C9
theorem). -/
theorem c2_lazy_env_creation (cfg : Config) (markersUsed : Bool) (toks : List Token) :
    (layout_transform cfg markersUsed none toks).2 =
      (if (emittedDiags cfg markersUsed toks).isEmpty then none
       else some (emittedDiags cfg markersUsed toks)) := by
  cases markersUsed with
  | false => simp [layout_transform, emittedDiags]
  | true =>
      simp only [layout_transform, emittedDiags, if_true]
      conv_lhs => rw [runTransform_env cfg toks none]
      rw [setEnv_env]
      simp [warnAll]

/-- C2 counterexample: with `env.layoutWarnings` absent and a
diagnostic-triggering nested `@spread`, the transform does NOT leave the
field absent: `warn` creates it and records the diagnostics. -/
theorem c2_nested_spread_creates_env :
    (layout_transform defaultConfig true none nestedSpreadInput).2 =
      some [⟨2, "nested_spread", msgNestedSpread, some ⟨"spread", none, [], 2⟩⟩,
            ⟨0, "spread_eof_close", msgSpreadEofClose, none⟩] ∧
    (layout_transform defaultConfig true none nestedSpreadInput).2 ≠ none := by
  constructor
  · decide
  · decide

/-- C4 amended: for a `@section` processed while a spread is open that has
seen no page, the `spread_without_pages` check runs only after the
implicit-page step, which clears the flag.  So: a page already open gives
exactly `spread_without_pages`; no page open with `implicitPage` enabled
gives exactly `implicit_page` (the synthesized page suppresses
`spread_without_pages`); no page open with `implicitPage` disabled gives
`section_without_page` followed by `spread_without_pages`. -/
theorem c4_spread_without_pages_cases (cfg : Config) (s : TState) (m : MarkerMeta)
    (hk : m.kind = "section") (hsp : s.spreadOpen = true)
    (hnp : s.spreadStartedWithNoPagesYet = true) :
    (processNode cfg s (markerTok m)).env =
      warnAll s.env
        (if s.pageOpen then [swpDiag m]
         else if cfg.implicitPage then [ipDiag m]
         else [sowDiag m, swpDiag m]) := by
  rcases s with ⟨sp, pg, sec, d, f, o, en⟩
  simp only [] at hsp hnp
  subst hsp hnp
  cases pg <;> cases sec <;> cases hip : cfg.implicitPage <;>
    simp [processNode, markerTok, tokMeta, hk, hip, openSection, openPage, closeSection,
      warnS, warnE, warnAll, ipDiag, sowDiag, swpDiag]

theorem c4_cases_witness :
    (processNode ⟨false, false, true⟩ ⟨true, false, false, true, false, [], none⟩
        (markerTok ⟨"section", some "x", [], 7⟩)).env =
      warnAll none [sowDiag ⟨"section", some "x", [], 7⟩, swpDiag ⟨"section", some "x", [], 7⟩] := by
  have h := c4_spread_without_pages_cases ⟨false, false, true⟩
    ⟨true, false, false, true, false, [], none⟩ ⟨"section", some "x", [], 7⟩ rfl rfl rfl
  simpa using h

/-- C4 counterexample: `@spread` then `@section` with `implicitPage` enabled
(a section processed while a spread with no pages yet is open) records only
`implicit_page` — no `spread_without_pages` diagnostic, contrary to the
claim that it is always additionally recorded. -/
theorem c4_implicit_page_suppresses_swp :
    (layout_transform defaultConfig true none spreadThenSectionInput).2 =
      some [ipDiag ⟨"section", some "intro", [], 2⟩] ∧
    ((layout_transform defaultConfig true none spreadThenSectionInput).2.getD []).all
      (fun dg => !(dg.dtype == "spread_without_pages")) = true := by
  constructor
  · decide
  · decide

/-- C5: a `@break` closes exactly the single nearest open scope in priority
order section → page → spread (a closed section leaves its page open, a
closed page leaves its spread open), and always emits exactly one break node
with class `md-break`, `aria-hidden="true"` and no other attributes; and in
scenario D the three breaks close section, then page, then spread, in that
order, with no diagnostics. -/
theorem c5_break_closes_nearest :
    (∀ (cfg : Config) (s : TState) (m : MarkerMeta), m.kind = "break" →
      (processNode cfg s (markerTok m)).out = s.out ++ nearestClose s ++ [breakTok] ∧
      (processNode cfg s (markerTok m)).sectionOpen = false ∧
      (processNode cfg s (markerTok m)).pageOpen = (s.pageOpen && s.sectionOpen) ∧
      (processNode cfg s (markerTok m)).spreadOpen =
        (s.spreadOpen && (s.sectionOpen || s.pageOpen)) ∧
      breakTok.attrs = [("class", "md-break"), ("aria-hidden", "true")]) ∧
    layout_transform defaultConfig true none scenarioD = (scenarioDOut, none) := by
  constructor
  · intro cfg s m hk
    rcases s with ⟨sp, pg, sec, d, f, o, en⟩
    cases sp <;> cases pg <;> cases sec <;> cases hwb : cfg.warnOnBreakWithoutScope <;>
      simp [processNode, markerTok, tokMeta, hk, hwb, nearestClose, closeSpread, closePage,
        closeSection, warnS, pushOut, breakTok, attrSet, listSet, mkToken]
  · decide

theorem c5_break_witness :
    (processNode defaultConfig ⟨true, true, true, false, true, [], none⟩
        (markerTok (exBreakMeta 9))).out =
      [] ++ nearestClose ⟨true, true, true, false, true, [], none⟩ ++ [breakTok] :=
  (c5_break_closes_nearest.1 defaultConfig ⟨true, true, true, false, true, [], none⟩
    (exBreakMeta 9) rfl).1

/-- C8: a document that is just `@section intro` with `implicitPage` enabled
yields exactly one `implicit_page` diagnostic at the section's line, and the
output is a synthesized page-open with `data-page="auto"` (class `page`, no
other attributes) immediately before the section-open carrying
`data-section="intro"` (class `region`). -/
theorem c8_implicit_page_scenario :
    layout_transform defaultConfig true none [markerTok ⟨"section", some "intro", [], 1⟩] =
      ([pageOpenTok ⟨"", some "auto", [], 1⟩, sectionOpenTok ⟨"section", some "intro", [], 1⟩],
        some [ipDiag ⟨"section", some "intro", [], 1⟩]) ∧
    (pageOpenTok ⟨"", some "auto", [], 1⟩).attrs = [("class", "page"), ("data-page", "auto")] ∧
    (sectionOpenTok ⟨"section", some "intro", [], 1⟩).attrs =
      [("class", "region"), ("data-section", "intro")] := by
  refine ⟨by decide, by decide, by decide⟩

/-- C1 counterexample: a document consisting of a single `@page` marker
produces an output with a `layout_page_open` and no matching close — the
end-of-document handler only closes spreads, so the wrapper nodes are not
balanced. -/
theorem c1_lone_page_unbalanced :
    wellNested (layout_transform defaultConfig true none
      [markerTok ⟨"page", some "p", [], 1⟩]).1 = false := by decide

/-! ## Nesting invariant for the transform output -/

theorem attrSet_ttype (t : Token) (k v : String) : (attrSet t k v).ttype = t.ttype := rfl

theorem addClasses_ttype (t : Token) (b e : String) : (addClasses t b e).ttype = t.ttype := by
  simp only [addClasses]
  repeat' split
  all_goals rfl

theorem entriesLoop_ttype (l : List (String × String)) :
    ∀ t : Token, (entriesLoop t l).ttype = t.ttype := by
  induction l with
  | nil => intro t; rfl
  | cons p rest ih =>
      intro t
      rcases p with ⟨k, v⟩
      simp only [entriesLoop]
      split
      · exact ih t
      · exact ih (attrSet t ("data-" ++ k) v)

theorem attachDataAttrs_ttype (t : Token) (k : String) (n : Option String)
    (a : List (String × String)) : (attachDataAttrs t k n a).ttype = t.ttype := by
  simp only [attachDataAttrs]
  rw [entriesLoop_ttype]
  repeat' split
  all_goals rfl

theorem wrapperRank_spreadOpenTok (m : MarkerMeta) :
    wrapperRank (spreadOpenTok m) = some (0, true) := by
  simp [wrapperRank, spreadOpenTok, attachDataAttrs_ttype, addClasses_ttype, mkToken]

theorem wrapperRank_pageOpenTok (m : MarkerMeta) :
    wrapperRank (pageOpenTok m) = some (1, true) := by
  simp [wrapperRank, pageOpenTok, attachDataAttrs_ttype, addClasses_ttype, mkToken]

theorem wrapperRank_sectionOpenTok (m : MarkerMeta) :
    wrapperRank (sectionOpenTok m) = some (2, true) := by
  simp [wrapperRank, sectionOpenTok, attachDataAttrs_ttype, addClasses_ttype, mkToken]

theorem wrapperRank_spreadClose :
    wrapperRank (mkToken "layout_spread_close" "div" (-1)) = some (0, false) := rfl

theorem wrapperRank_pageClose :
    wrapperRank (mkToken "layout_page_close" "div" (-1)) = some (1, false) := rfl

theorem wrapperRank_sectionClose :
    wrapperRank (mkToken "layout_section_close" "div" (-1)) = some (2, false) := rfl

theorem wrapperRank_breakTok : wrapperRank breakTok = none := rfl

theorem markerKind_tokMeta (t : Token) : markerKind t = (tokMeta t).kind := by
  rcases t with ⟨ty, tg, n, a, mo⟩
  cases mo <;> rfl

theorem nestCheckSt_append (a b : List Token) :
    ∀ st, nestCheckSt (a ++ b) st = (nestCheckSt a st).bind (fun st2 => nestCheckSt b st2) := by
  induction a with
  | nil => intro st; rfl
  | cons t a ih =>
      intro st
      simp only [List.cons_append, nestCheckSt]
      cases hw : wrapperRank t with
      | none => exact ih st
      | some p =>
          obtain ⟨k, op⟩ := p
          cases op
          · cases st with
            | nil => simp
            | cons h tl =>
                by_cases hk : (h == k) = true
                · simp only [hk, if_true]; exact ih tl
                · simp [hk]
          · cases st with
            | nil => exact ih [k]
            | cons h tl =>
                by_cases hk : h < k
                · simp only [if_pos hk]; exact ih (k :: h :: tl)
                · simp [if_neg hk]

theorem processNode_nest (cfg : Config) (s : TState) (t : Token)
    (hdc : dcOK s = true) (hleg : legalIn t = true)
    (hguard : (if t.ttype == "layout_marker" && markerKind t == "spread" then
        s.spreadOpen || !s.pageOpen else true) = true)
    (hdc' : dcOK (processNode cfg s t) = true)
    (hst : nestCheckSt s.out [] = some (stackOf s)) :
    nestCheckSt (processNode cfg s t).out [] = some (stackOf (processNode cfg s t)) := by
  have hwt : wrapperRank t = none := by
    cases hw : wrapperRank t
    · rfl
    · rw [legalIn, hw] at hleg; simp at hleg
  by_cases h1 : (t.ttype == "layout_marker") = true
  · rcases s with ⟨sp, pg, sec, d, f, o, en⟩
    by_cases h2 : ((tokMeta t).kind == "spread") = true
    · rw [markerKind_tokMeta] at hguard
      simp only [h1, h2, Bool.and_self, if_true, Bool.true_and] at hguard
      cases sp <;> cases pg <;> cases sec <;>
        simp_all [processNode, dcOK, stackOf, openSpread, closeSpread, closePage,
          closeSection, warnS, nestCheckSt_append, nestCheckSt, wrapperRank_spreadOpenTok,
          wrapperRank_spreadClose, wrapperRank_pageClose, wrapperRank_sectionClose]
    · by_cases h3 : ((tokMeta t).kind == "page") = true
      · cases sp <;> cases pg <;> cases sec <;> cases hpp : cfg.preferPagesInSpreads <;>
          simp_all [processNode, dcOK, stackOf, openPage, closePage, closeSection, warnS,
            nestCheckSt_append, nestCheckSt, wrapperRank_pageOpenTok, wrapperRank_pageClose,
            wrapperRank_sectionClose]
      · by_cases h4 : ((tokMeta t).kind == "section") = true
        · cases sp <;> cases pg <;> cases sec <;> cases hd : d <;>
            cases hip : cfg.implicitPage <;> cases hpp : cfg.preferPagesInSpreads <;>
            simp_all [processNode, dcOK, stackOf, openSection, openPage, closeSection,
              warnS, nestCheckSt_append, nestCheckSt, wrapperRank_sectionOpenTok,
              wrapperRank_pageOpenTok, wrapperRank_sectionClose]
        · by_cases h5 : ((tokMeta t).kind == "break") = true
          · cases sp <;> cases pg <;> cases sec <;> cases hwb : cfg.warnOnBreakWithoutScope <;>
              simp_all [processNode, dcOK, stackOf, closeSpread, closePage, closeSection,
                warnS, pushOut, nestCheckSt_append, nestCheckSt, wrapperRank_breakTok,
                wrapperRank_spreadClose, wrapperRank_pageClose, wrapperRank_sectionClose]
          · simp_all [processNode]
  · have h1' : (t.ttype == "layout_marker") = false := by simpa using h1
    simp [processNode, h1', pushOut, nestCheckSt_append, hst, nestCheckSt, hwt, stackOf]

theorem goTransform_nest (cfg : Config) :
    ∀ (ts : List Token) (s : TState),
      dcOK s = true →
      nestCheckSt s.out [] = some (stackOf s) →
      scopedOK cfg s ts = true →
      dcOK (goTransform cfg s ts) = true ∧
      nestCheckSt (goTransform cfg s ts).out [] = some (stackOf (goTransform cfg s ts)) ∧
      eofOK (goTransform cfg s ts) = true := by
  intro ts
  induction ts with
  | nil =>
      intro s hdc hst hsc
      simp only [scopedOK] at hsc
      exact ⟨hdc, hst, hsc⟩
  | cons t ts ih =>
      intro s hdc hst hsc
      simp only [scopedOK] at hsc
      rw [Bool.and_eq_true, Bool.and_eq_true, Bool.and_eq_true] at hsc
      obtain ⟨⟨⟨hleg, hguard⟩, hdc'⟩, hsc'⟩ := hsc
      have hst' := processNode_nest cfg s t hdc hleg hguard hdc' hst
      simp only [goTransform]
      exact ih (processNode cfg s t) hdc' hst' hsc'

theorem finishTransform_nest (s : TState) (hdc : dcOK s = true) (heof : eofOK s = true)
    (hst : nestCheckSt s.out [] = some (stackOf s)) :
    wellNested (finishTransform s).out = true := by
  rcases s with ⟨sp, pg, sec, d, f, o, en⟩
  cases sp <;> cases pg <;> cases sec <;> cases f <;>
    simp_all [finishTransform, closeSpread, closePage, closeSection, warnS, dcOK, eofOK,
      stackOf, wellNested, nestCheckSt_append, nestCheckSt,
      wrapperRank_spreadClose, wrapperRank_pageClose, wrapperRank_sectionClose]

/-- C1 amended: the output wrapper nodes are balanced and properly nested
(respecting spread ⊇ page ⊇ section) for every run in which the input
contains no pre-made wrapper nodes, the scope flags stay downward closed
(a section is only ever open under a page — in particular `@section` is
never processed page-less with `implicitPage` disabled), no new spread opens
while a page is open outside a spread, and end-of-document finds no page
open outside a spread (`scopedOK`).  Without these conditions the claim is
false: see the lone-`@page` counterexample, where the page wrapper is left
unclosed at end-of-document. -/
theorem c1_scoped_outputs_wellNested (cfg : Config) (toks : List Token)
    (e : Option (List Diag)) (h : scopedOK cfg (initState none) toks = true) :
    wellNested (layout_transform cfg true e toks).1 = true := by
  have hrun : (layout_transform cfg true e toks).1 = (runTransform cfg none toks).out := by
    simp only [layout_transform, if_true]
    rw [runTransform_env cfg toks e, setEnv_out]
  rw [hrun]
  have hmain := goTransform_nest cfg toks (initState none) rfl rfl h
  exact finishTransform_nest (goTransform cfg (initState none) toks) hmain.1 hmain.2.2 hmain.2.1

theorem c1_scenario_witness :
    scopedOK defaultConfig (initState none) scenarioD = true ∧
    wellNested (layout_transform defaultConfig true none scenarioD).1 = true :=
  ⟨by decide, c1_scoped_outputs_wellNested defaultConfig scenarioD none (by decide)⟩
